import Mathlib

/-!
Verification development for the horus LIFX controller.

The Go sources under `lifx/`, `api/` and `tools/` are shallowly embedded:
bytes are naturals (values < 256 wherever the source produces them), Go byte
slices are `List Nat`, Go slicing/indexing that can panic is modelled with
`Option` (`none` = runtime panic), and fallible Go functions returning
`error` are modelled with `Except Err`.
-/

namespace Horus

/-- Error kinds of the `juju/errors` values the sources construct:
`NotValid` (validation / malformed), `NotFound`, `NotImplemented`.
`errors.Annotate` keeps the kind of its cause. -/
inductive Err where
  | notValid
  | notFound
  | notImplemented
deriving Repr, DecidableEq

/-- Go slice expression `l[a:b]`: panics (`none`) unless `a ≤ b ≤ len l`. -/
def goSlice (l : List Nat) (a b : Nat) : Option (List Nat) :=
  if a ≤ b ∧ b ≤ l.length then some ((l.drop a).take (b - a)) else none

/-- Go slice expression `l[a:]`: panics (`none`) unless `a ≤ len l`. -/
def goSliceFrom (l : List Nat) (a : Nat) : Option (List Nat) :=
  if a ≤ l.length then some (l.drop a) else none

/-- Go slice expression `l[a:b]` with `int` bounds (the refresh-sequence
decoders index from `len(bytes) - k`, which can be negative): panics
(`none`) unless `0 ≤ a ≤ b ≤ len l`. -/
def goSliceI (l : List Nat) (a b : Int) : Option (List Nat) :=
  if 0 ≤ a ∧ a ≤ b ∧ b ≤ (l.length : Int) then
    some ((l.drop a.toNat).take (b - a).toNat)
  else none

/-- Go index expression `l[i]`: panics (`none`) unless `i < len l`. -/
def goIndex (l : List Nat) (i : Nat) : Option Nat := l.get? i

/-- Go `copy(dst, src)`: copies `min (len dst) (len src)` elements into the
front of `dst`; `dst` keeps its length. -/
def goCopy (dst src : List Nat) : List Nat :=
  src.take dst.length ++ dst.drop src.length

/-- Model of `binary.LittleEndian.PutUint16` into a fresh 2-byte buffer. -/
def putU16LE (n : Nat) : List Nat := [n % 256, n / 256 % 256]

/-- Model of `binary.LittleEndian.Uint16` of the first two bytes. -/
def getU16LE (l : List Nat) : Nat := l.getD 0 0 + 256 * l.getD 1 0

/-- Model of `binary.BigEndian.Uint16` of the first two bytes. -/
def getU16BE (l : List Nat) : Nat := 256 * l.getD 0 0 + l.getD 1 0

/-- Model of `binary.LittleEndian.PutUint32` into a fresh 4-byte buffer. -/
def putU32LE (n : Nat) : List Nat :=
  [n % 256, n / 256 % 256, n / 65536 % 256, n / 16777216 % 256]

/-- Model of `binary.LittleEndian.Uint32` of the first four bytes. -/
def getU32LE (l : List Nat) : Nat :=
  l.getD 0 0 + 256 * l.getD 1 0 + 65536 * l.getD 2 0 + 16777216 * l.getD 3 0

/-- Go `uint16` truncation. -/
def u16 (n : Nat) : Nat := n % 65536

/-- Model of `lifx.Header` (src/lifx/header.go): the `[2]byte`/`[4]byte`/`[8]byte`
arrays are byte lists (their lengths are fixed by Go's types and by every
constructor in the sources). -/
structure Header where
  frame : List Nat
  source : List Nat
  target : List Nat
  ackRequired : Bool
  resRequired : Bool
  sequence : Nat
  messageType : List Nat
deriving Repr, DecidableEq

/-- Model of `lifx.TAFrame` (frame constants file): tagged+addressable frame bytes. -/
def TAFrame : List Nat := [0x00, 0x34]

/-- Model of `lifx.DefaultFrame`. -/
def DefaultFrame : List Nat := TAFrame

/-- Model of `lifx.Source` default value. -/
def Source : List Nat := [0x00, 0x00, 0x00, 0x00]

/-- Model of `lifx.DefaultTarget`. -/
def DefaultTarget : List Nat := List.replicate 8 0x00

/-- Model of `lifx.size`: the header size in bytes. -/
def headerSize : Nat := 34

/-- Model of `lifx.NewHeader` (src/lifx/header.go). -/
def NewHeader : Header :=
  { frame := DefaultFrame
    source := Source
    target := DefaultTarget
    ackRequired := false
    resRequired := false
    sequence := 0x00
    messageType := [0x00, 0x00] }

/-- Model of `lifx.SetColor` message-type code. -/
def SetColor : Nat := 102

/-- Model of `lifx.Get` message-type code. -/
def GetType : Nat := 101

/-- Model of `Header.SetMessageType` (src/lifx/header.go): stores the code
little-endian in the 2-byte `messageType` field. -/
def Header.setMessageType (h : Header) (msgType : Nat) : Header :=
  { h with messageType := putU16LE msgType }

/-- Model of `Header.encodeAckResToByte` (src/lifx/header.go:164-176). -/
def Header.encodeAckResToByte (h : Header) : Nat :=
  if !h.ackRequired && !h.resRequired then 0x00
  else if !h.ackRequired && h.resRequired then 0x01
  else if h.ackRequired && !h.resRequired then 0x10
  else 0x11

/-- Model of `decodeAckRes` (src/lifx/header.go:181-193): NOTE the source has no
error path — every byte other than `0x00`/`0x01`/`0x10` falls through to
`(true, true)`. -/
def decodeAckRes (b : Nat) : Bool × Bool :=
  if b = 0x00 then (false, false)
  else if b = 0x01 then (false, true)
  else if b = 0x10 then (true, false)
  else (true, true)

/-- Model of `Header.EncodeToBytes` (src/lifx/header.go:135-161): frame ++ source ++
target ++ 6 reserved ++ control byte ++ sequence ++ 8 reserved ++
messageType ++ 2 reserved, then `buffer[0:34]` (a no-op for the fixed-size
fields, modelled as `take 34`). -/
def Header.encodeToBytes (h : Header) : List Nat :=
  (h.frame ++ h.source ++ h.target ++ List.replicate 6 0x00
    ++ [h.encodeAckResToByte, h.sequence] ++ List.replicate 8 0x00
    ++ h.messageType ++ [0x00, 0x00]).take 34

/-- Model of `lifx.Message` (src/lifx/message.go): `Size [2]byte`, a header, and a
byte-slice payload. -/
structure Message where
  size : List Nat
  header : Header
  payload : List Nat
deriving Repr, DecidableEq

/-- Model of `lifx.NewMessage` (src/lifx/message.go). -/
def NewMessage : Message :=
  { size := [0x00, 0x00], header := NewHeader, payload := [] }

/-- Model of `Message.updateSize` (src/lifx/message.go:109-116):
`uint16(len(m.Size)) + uint16(m.Header.getSize()) + uint16(len(m.payload))`
with Go's wrapping `uint16` arithmetic, written little-endian into `Size`. -/
def Message.updateSize (m : Message) : Message :=
  { m with size := putU16LE (u16 (2 + 34 + u16 m.payload.length)) }

/-- Model of `Message.EncodeToBytes` (src/lifx/message.go:96-106). -/
def Message.encodeToBytes (m : Message) : List Nat :=
  let m := m.updateSize
  m.size ++ m.header.encodeToBytes ++ m.payload

/-- Model of `DecodeToMessage` (src/lifx/message.go:120-145): slices the input with
no length validation (so a short buffer panics, `none`); fields are copied
with Go `copy` into the zero-valued destination arrays, and the payload is
copied into the zero-value **nil** slice. -/
def DecodeToMessage (bytes : List Nat) : Option Message := do
  let sz ← goSlice bytes 0 2
  let fr ← goSlice bytes 2 4
  let so ← goSlice bytes 4 8
  let ta ← goSlice bytes 8 16
  let ctrl ← goIndex bytes 16
  let seq ← goIndex bytes 17
  let mt ← goSlice bytes 18 19
  let pl ← goSliceFrom bytes 19
  let ar := decodeAckRes ctrl
  pure { size := goCopy [0x00, 0x00] sz
         header :=
           { frame := goCopy [0x00, 0x00] fr
             source := goCopy [0x00, 0x00, 0x00, 0x00] so
             target := goCopy (List.replicate 8 0x00) ta
             ackRequired := ar.1
             resRequired := ar.2
             sequence := seq
             messageType := goCopy [0x00, 0x00] mt }
         payload := goCopy [] pl }

/-- Model of `lifx.HSBK` (src/lifx/lifx.go): four `uint16` fields. -/
structure HSBK where
  hue : Nat
  saturation : Nat
  brightness : Nat
  kelvin : Nat
deriving Repr, DecidableEq

/-- Model of `lifx.Off` premade HSBK. -/
def Off : HSBK := { hue := 0, saturation := 0, brightness := 0, kelvin := 0 }

/-- Model of `lifx.On` premade HSBK. -/
def On : HSBK :=
  { hue := 65535, saturation := 65535, brightness := 32767, kelvin := 65535 }

/-- Model of `lifx.Power` (src/lifx/lifx.go): a string type whose only documented
values are `"on"` and `"off"`. -/
inductive Power where
  | on
  | off
deriving Repr, DecidableEq

/-- Model of `lifx.Group` (src/lifx/lifx.go): 16-byte id and a label. -/
structure Group where
  id : List Nat
  label : String
deriving Repr, DecidableEq

/-- Model of `lifx.Location` (src/lifx/lifx.go): 16-byte id and a label. -/
structure Location where
  id : List Nat
  label : String
deriving Repr, DecidableEq

/-- Model of `lifx.Info` (src/lifx/lifx.go): time statistics. -/
structure Info where
  time : Nat
  upTime : Nat
  downTime : Nat
deriving Repr, DecidableEq

/-- Model of `lifx.Capabilities` (src/lifx/lifx.go). -/
structure Capabilities where
  hasColor : Bool
  hasIR : Bool
  hasMultiZone : Bool
deriving Repr, DecidableEq

/-- Model of `lifx.Product` (src/lifx/lifx.go): the capabilities pointer is
nullable. -/
structure Product where
  id : Nat
  name : String
  vendor : String
  version : Nat
  capabilities : Option Capabilities
deriving Repr, DecidableEq

/-- Model of `lifx.State` (src/lifx/lifx.go): the reply to a Get (101) message. -/
structure State where
  hsbk : HSBK
  power : Power
  label : String
deriving Repr, DecidableEq

/-- Model of `lifx.Lifx` (src/lifx/lifx.go): the device record. Nullable Go pointer
fields (`*HSBK`, `*Group`, `*Product`, `*Info`, `*Location`) are `Option`.
The network fields (address, port, protocol, client) and the `float32`
infrared level are not touched by any modelled operation and are omitted. -/
structure Lifx where
  uuid : String
  label : String
  connected : Bool
  power : Power
  hsbk : Option HSBK
  group : Option Group
  product : Option Product
  info : Option Info
  location : Option Location
deriving Repr, DecidableEq

/-- Model of `encodeHSBKToBytes` (src/lifx/message.go:153-169). -/
def encodeHSBKToBytes (hsbk : HSBK) : List Nat :=
  putU16LE hsbk.hue ++ putU16LE hsbk.saturation
    ++ putU16LE hsbk.brightness ++ putU16LE hsbk.kelvin

/-- Model of `encodeDurationToBytes` (src/lifx/message.go:171-176). -/
def encodeDurationToBytes (duration : Nat) : List Nat := putU32LE duration

/-- Model of `SetColorMessage` (src/lifx/message.go:33-49): payload is one reserved
byte, the HSBK, and the duration; header gets type 102, response required,
sequence `0x10`, frame `TAFrame`. -/
def SetColorMessage (hsbk : HSBK) (duration : Nat) : Message :=
  let payload := 0x00 :: (encodeHSBKToBytes hsbk ++ encodeDurationToBytes duration)
  let m := { NewMessage with payload := payload }
  let hdr := m.header.setMessageType SetColor
  { m with header :=
      { hdr with resRequired := true, sequence := 0x10, frame := TAFrame } }

/-- Model of `GetMessageWithoutPayload` (src/lifx/message.go:53-60). -/
def GetMessageWithoutPayload (msgType : Nat) : Message :=
  let hdr := NewMessage.header.setMessageType msgType
  { NewMessage with header :=
      { hdr with resRequired := true, frame := TAFrame, sequence := 0x10 } }

/-- Model of `tools.DecodeToString` (src/tools/tools.go): `bytes.Trim(datas, "\x00")`
then string conversion. Go decodes the trimmed bytes as UTF-8; we map each
byte to its code point, which agrees on the ASCII labels the system uses. -/
def DecodeToString (datas : List Nat) : String :=
  let trimmed := ((datas.dropWhile (· = 0)).reverse.dropWhile (· = 0)).reverse
  String.mk (trimmed.map Char.ofNat)

/-- Model of `DecodeToHSBK` (src/lifx/lifx.go:460-480): the only decoder with a
length check. -/
def DecodeToHSBK (bytes : List Nat) : Except Err HSBK :=
  if bytes.length ≠ 8 then .error .notValid
  else
    .ok { hue := getU16LE (bytes.take 2)
          saturation := getU16LE ((bytes.drop 2).take 2)
          brightness := getU16LE ((bytes.drop 4).take 2)
          kelvin := getU16LE ((bytes.drop 6).take 2) }

/-- Model of `DecodeToState` (src/lifx/lifx.go:432-456): slices fixed negative
offsets from the end with **no size verification** (the source carries a
`TODO: add size verification`); a buffer shorter than 52 bytes panics
(`none`). The inner `Except` is the error return path of `DecodeToHSBK`. -/
def DecodeToState (bytes : List Nat) : Option (Except Err State) := do
  let size : Int := bytes.length
  let hsbkBytes ← goSliceI bytes (size - 52) (size - 44)
  match DecodeToHSBK hsbkBytes with
  | .error e => pure (.error e)
  | .ok hsbk => do
    let labelBytes ← goSliceI bytes (size - 40) (size - 8)
    let powerBytes ← goSliceI bytes (size - 42) (size - 40)
    let power := if getU16BE powerBytes = 65535 then Power.on else Power.off
    pure (.ok { hsbk := hsbk, label := DecodeToString labelBytes, power := power })

/-- Model of `DecodeToGroup` (src/lifx/lifx.go:484-502): same negative-offset
slicing, no size verification (`TODO` in the source). -/
def DecodeToGroup (bytes : List Nat) : Option Group := do
  let size : Int := bytes.length
  let idBytes ← goSliceI bytes (size - 56) (size - 40)
  let labelBytes ← goSliceI bytes (size - 40) (size - 8)
  pure { id := goCopy (List.replicate 16 0x00) idBytes
         label := DecodeToString labelBytes }

/-- Model of `DecodeToInfo` (src/lifx/lifx.go:506-521): no size verification
(`TODO` in the source). -/
def DecodeToInfo (bytes : List Nat) : Option Info := do
  let size : Int := bytes.length
  let timeBytes ← goSliceI bytes (size - 24) (size - 16)
  let upBytes ← goSliceI bytes (size - 16) (size - 8)
  let downBytes ← goSliceI bytes (size - 8) size
  pure { time := getU16LE timeBytes
         upTime := getU16LE upBytes
         downTime := getU16LE downBytes }

/-- Model of `DecodeToLocation` (src/lifx/lifx.go:525-543): no size verification
(`TODO` in the source). -/
def DecodeToLocation (bytes : List Nat) : Option Location := do
  let size : Int := bytes.length
  let idBytes ← goSliceI bytes (size - 56) (size - 40)
  let labelBytes ← goSliceI bytes (size - 40) (size - 8)
  pure { id := goCopy (List.replicate 16 0x00) idBytes
         label := DecodeToString labelBytes }

/-- Model of `DecodeToProduct` (src/lifx/lifx.go:547-556): reads a product id from
the end of the buffer (no size verification, `TODO` in the source) and
looks it up in the product table (a map, here a lookup function); an
unknown id yields `none`, not an error. -/
def DecodeToProduct (bytes : List Nat) (productsList : Nat → Option Product) :
    Option (Option Product) := do
  let size : Int := bytes.length
  let idBytes ← goSliceI bytes (size - 8) (size - 4)
  pure (productsList (getU32LE idBytes))

instance instDecEqExcept {ε α : Type} [DecidableEq ε] [DecidableEq α] :
    DecidableEq (Except ε α)
  | .error e, .error f =>
    decidable_of_iff (e = f) ⟨fun h => h ▸ rfl, fun h => by injection h⟩
  | .error _, .ok _ => .isFalse (fun h => Except.noConfusion h)
  | .ok _, .error _ => .isFalse (fun h => Except.noConfusion h)
  | .ok a, .ok b =>
    decidable_of_iff (a = b) ⟨fun h => h ▸ rfl, fun h => by injection h⟩

/-- The outcomes of the five network exchanges `Lifx.Update`
(src/lifx/lifx.go:222-305) performs, in order. Each field abstracts one
`Send` + `DecodeToX` round trip: `.error e` when either the send or the
decode step of that exchange returns an error `e`. The version exchange
yields an optional product (`DecodeToProduct` returns the table lookup,
`none` for an unknown id, without error). -/
structure UpdateResults where
  state : Except Err State
  group : Except Err Group
  info : Except Err Info
  location : Except Err Location
  version : Except Err (Option Product)
deriving Repr, DecidableEq

/-- Model of `Lifx.Update` (src/lifx/lifx.go:222-305) with the five exchange
outcomes supplied as `UpdateResults`: sets `connected := false` at entry,
applies each exchange's fields in order, aborts on the first error
(returning it as the second component), and sets `connected := true` only
after all five succeed. -/
def Lifx.update (l : Lifx) (r : UpdateResults) : Lifx × Option Err :=
  let l := { l with connected := false }
  match r.state with
  | .error e => (l, some e)
  | .ok st =>
    let l := { l with hsbk := some st.hsbk, label := st.label, power := st.power }
    match r.group with
    | .error e => (l, some e)
    | .ok g =>
      let l := { l with group := some g }
      match r.info with
      | .error e => (l, some e)
      | .ok i =>
        let l := { l with info := some i }
        match r.location with
        | .error e => (l, some e)
        | .ok loc =>
          let l := { l with location := some loc }
          match r.version with
          | .error e => (l, some e)
          | .ok p =>
            let l := { l with product := p }
            ({ l with connected := true }, none)

/-- The "on" HSBK `Lifx.Toggle` builds: the `On` preset with its brightness
replaced by the given brightness (src/lifx/lifx.go:402-408). -/
def onWithBrightness (brightness : Nat) : HSBK :=
  { hue := On.hue, saturation := On.saturation
    brightness := brightness, kelvin := On.kelvin }

/-- The SetColor message `Lifx.Toggle` (src/lifx/lifx.go:391-428) sends.
The guard is Go's short-circuit `l.Power == PowerOn && l.HSBK.Brightness > 0`:
when the power is on, the cached HSBK pointer is dereferenced (`none` =
nil-pointer panic when the device has no cached color); when the power is
not on, the conjunction short-circuits without touching the color. -/
def toggleMessage (power : Power) (hsbk : Option HSBK)
    (brightness : Nat) (duration : Nat) : Option Message :=
  if power = Power.on then
    match hsbk with
    | none => none
    | some c =>
      if c.brightness > 0 then some (SetColorMessage Off duration)
      else some (SetColorMessage (onWithBrightness brightness) duration)
  else some (SetColorMessage (onWithBrightness brightness) duration)

/-- Model of `api.selector` (src/api/api.go). -/
structure Selector where
  name : String
  isDynamic : Bool
  value : String
deriving Repr, DecidableEq

/-- Model of `api.all` static selector. -/
def allSelector : Selector := { name := "all", isDynamic := false, value := "" }

/-- Model of `api.label` dynamic selector. -/
def labelSelector : Selector := { name := "label", isDynamic := true, value := "" }

/-- Model of `api.uuid` dynamic selector. -/
def uuidSelector : Selector := { name := "uuid", isDynamic := true, value := "" }

/-- Model of `api.groupID` dynamic selector. -/
def groupIDSelector : Selector := { name := "group_id", isDynamic := true, value := "" }

/-- Model of `api.group` dynamic selector. -/
def groupSelector : Selector := { name := "group", isDynamic := true, value := "" }

/-- Model of `api.locationID` dynamic selector. -/
def locationIDSelector : Selector :=
  { name := "location_id", isDynamic := true, value := "" }

/-- Model of `api.location` dynamic selector. -/
def locationSelector : Selector := { name := "location", isDynamic := true, value := "" }

/-- Model of `api.sceneID` dynamic selector. -/
def sceneIDSelector : Selector := { name := "scene_id", isDynamic := true, value := "" }

/-- Model of `API.selectors`, in the order `api.New` (src/api/api.go) registers
them. -/
def selectorsList : List Selector :=
  [allSelector, labelSelector, uuidSelector, groupIDSelector,
    groupSelector, locationIDSelector, locationSelector, sceneIDSelector]

/-- Go `strings.Split(s, ":")` on the character lists of ASCII strings. -/
def splitChar (c : Char) : List Char → List (List Char)
  | [] => [[]]
  | a :: rest =>
    if a = c then [] :: splitChar c rest
    else
      match splitChar c rest with
      | [] => [[a]]
      | g :: gs => (a :: g) :: gs

/-- Go `strings.Split(s, sep)` for a one-character separator. -/
def goSplit (s : String) (c : Char) : List String :=
  (splitChar c s.toList).map (fun cs => String.mk cs)

/-- Go `strings.Contains(s, sep)` for a one-character separator. -/
def goContains (s : String) (c : Char) : Bool := s.toList.any (· = c)

/-- The no-colon branch of `API.parseSelector` (src/api/tools.go:35-50):
scan the registered selectors; the first whose name matches is returned if
static, rejected as not-valid if dynamic; no match is not-found. -/
def findNoColon : List Selector → String → Except Err Selector
  | [], _ => .error .notFound
  | s :: rest, str =>
    if str = s.name then
      if s.isDynamic then .error .notValid else .ok s
    else findNoColon rest str

/-- The `name:value` branch of `API.parseSelector` (src/api/tools.go:61-71):
the first registered selector whose name matches gets the value attached;
no match is not-found. -/
def findWithValue : List Selector → String → String → Except Err Selector
  | [], _, _ => .error .notFound
  | s :: rest, nm, v =>
    if nm = s.name then .ok { s with value := v }
    else findWithValue rest nm v

/-- Model of `API.parseSelector` (src/api/tools.go:23-72). -/
def parseSelector (selectorStr : String) : Except Err Selector :=
  if selectorStr.length = 0 then .ok allSelector
  else if !goContains selectorStr ':' then findNoColon selectorsList selectorStr
  else
    match goSplit selectorStr ':' with
    | [nm, v] => findWithValue selectorsList nm v
    | _ => .error .notValid

/-- The loop body plus epilogue of `API.sortBySelector`
(src/api/tools.go:77-129). `full` is `a.config.Lifx` (returned whole by the
`all` case), `acc` the matches collected so far; the result is `none` when
the Go code dereferences a nil `Group`/`Location` pointer. -/
def sortLoop (sel : Selector) (full : List Lifx) :
    List Lifx → List Lifx → Option (Except Err (List Lifx))
  | [], acc =>
    some (if acc.isEmpty then .error .notFound else .ok acc)
  | device :: rest, acc =>
    if sel.name = "all" then some (.ok full)
    else if sel.name = "label" then
      sortLoop sel full rest (if sel.value = device.label then acc ++ [device] else acc)
    else if sel.name = "uuid" then
      sortLoop sel full rest (if sel.value = device.uuid then acc ++ [device] else acc)
    else if sel.name = "group_id" then some (.error .notImplemented)
    else if sel.name = "group" then
      match device.group with
      | none => none
      | some g =>
        sortLoop sel full rest (if sel.value = g.label then acc ++ [device] else acc)
    else if sel.name = "location_id" then some (.error .notImplemented)
    else if sel.name = "location" then
      match device.location with
      | none => none
      | some loc =>
        sortLoop sel full rest (if sel.value = loc.label then acc ++ [device] else acc)
    else if sel.name = "scene_id" then some (.error .notImplemented)
    else some (.error .notFound)

/-- Model of `API.sortBySelector` (src/api/tools.go:77-129) over a device registry
(`a.config.Lifx`). -/
def sortBySelector (sel : Selector) (registry : List Lifx) :
    Option (Except Err (List Lifx)) :=
  sortLoop sel registry registry []

/-- The header carried by the message used to exhibit the C1 decode/encode
mismatch: response required, sequence `0x10`, message type 102 — exactly
the header every `SetColorMessage` carries. -/
def C1Header : Header :=
  { NewHeader with resRequired := true, sequence := 0x10, messageType := putU16LE 102 }

/-- C1: the claim states `decode(encode(h)) = h` for every valid header.
The code violates it: encoding a message whose header has
`resRequired = true`, `sequence = 0x10`, `messageType = 102` and decoding
the result yields the all-default header (both flags false, sequence 0,
message type 0), because `DecodeToMessage` reads the control byte,
sequence and message type from offsets 16–18 — reserved zero bytes under
the encoder's layout — instead of 22, 23 and 32–33. -/
theorem decode_not_inverse_of_encode :
    (DecodeToMessage
        (Message.encodeToBytes { NewMessage with header := C1Header })).map
        Message.header = some NewHeader
    ∧ NewHeader ≠ C1Header := by decide

/-- C2: the claim states every decoder validates the buffer before
slicing. The code performs no validation: every decoder panics (`none`)
on a short buffer instead of returning a malformed-message error, and
`DecodeToMessage` accepts a buffer whose declared size (99) disagrees
with its actual length (36). -/
theorem decoders_do_not_validate :
    DecodeToMessage (List.replicate 10 0) = none
    ∧ DecodeToState (List.replicate 10 0) = none
    ∧ DecodeToGroup (List.replicate 10 0) = none
    ∧ DecodeToInfo (List.replicate 10 0) = none
    ∧ DecodeToLocation (List.replicate 10 0) = none
    ∧ DecodeToProduct (List.replicate 4 0) (fun _ => none) = none
    ∧ (DecodeToMessage (99 :: 0 :: List.replicate 34 7)).isSome = true := by decide

/-- C3: the claim states the control-byte decoder accepts exactly
{0x00, 0x01, 0x10, 0x11} and rejects every other byte as malformed. The
code maps the four values as claimed but has no rejection path: every
other byte (e.g. 0x42 or 0x02) silently falls through to `(true, true)`. -/
theorem decodeAckRes_never_rejects :
    decodeAckRes 0x00 = (false, false)
    ∧ decodeAckRes 0x01 = (false, true)
    ∧ decodeAckRes 0x10 = (true, false)
    ∧ decodeAckRes 0x11 = (true, true)
    ∧ decodeAckRes 0x42 = (true, true)
    ∧ decodeAckRes 0x02 = (true, true) := by decide

/-- The size prefix of an encoded message is `36 + len(payload)` reduced
modulo 2^16 (Go's `uint16` arithmetic in `updateSize`). -/
theorem getU16LE_encodeToBytes (m : Message) :
    getU16LE m.encodeToBytes = (36 + m.payload.length) % 65536 := by
  simp [Message.encodeToBytes, Message.updateSize, putU16LE, getU16LE, u16]
  omega

/-- C4 (counterexample): the claim states the first two bytes of an
encoded message, read little-endian, equal `36 + L` for every payload
length `L`; with a 65500-byte payload they read 0, not 65536. -/
theorem size_prefix_overflows :
    getU16LE (Message.encodeToBytes
        { NewMessage with payload := List.replicate 65500 0 }) = 0
    ∧ (0 : Nat) ≠ 36 + (List.replicate 65500 (0 : Nat)).length := by
  constructor
  · refine (getU16LE_encodeToBytes _).trans ?_
    rw [show ({ NewMessage with payload := List.replicate 65500 (0 : Nat) } :
            Message).payload = List.replicate 65500 (0 : Nat) from rfl,
      List.length_replicate]
  · rw [List.length_replicate]
    omega

/-- C4 (amended): the first two bytes of every encoded message, read
little-endian, equal `(36 + L) % 65536`, which is `36 + L` whenever the
payload length `L` is at most 65499. -/
theorem size_prefix_invariant (m : Message) :
    getU16LE m.encodeToBytes = (36 + m.payload.length) % 65536
    ∧ (m.payload.length ≤ 65499 →
        getU16LE m.encodeToBytes = 36 + m.payload.length) := by
  refine ⟨getU16LE_encodeToBytes m, fun h => ?_⟩
  rw [getU16LE_encodeToBytes m, Nat.mod_eq_of_lt (by omega)]

/-- Witness for C4's amended theorem at the empty-payload message. -/
theorem size_prefix_invariant_witness :
    getU16LE (Message.encodeToBytes NewMessage) = 36 + NewMessage.payload.length :=
  (size_prefix_invariant NewMessage).2 (by decide)

/-- C5: selector parsing — the empty string resolves to `all`; every
dynamic selector name given without a value is rejected as not-valid; an
unknown bare name is not-found; `name:value` with a known name returns
that selector carrying the value; an unknown name with a value is
not-found; more than one `:` is not-valid. -/
theorem parseSelector_cases :
    parseSelector "" = .ok allSelector
    ∧ (selectorsList.all fun s =>
        !s.isDynamic || decide (parseSelector s.name = .error .notValid)) = true
    ∧ parseSelector "zzz" = .error .notFound
    ∧ parseSelector "label:kitchen"
        = .ok { name := "label", isDynamic := true, value := "kitchen" }
    ∧ parseSelector "foo:bar" = .error .notFound
    ∧ parseSelector "a:b:c" = .error .notValid := by decide

/-- The epilogue of `sortBySelector`'s match collection: an empty match
set is reported not-found, a non-empty one is the success list. -/
def matchResult (devices : List Lifx) : Except Err (List Lifx) :=
  if devices.isEmpty then .error .notFound else .ok devices

/-- Holds when `d` has a group whose label is `v`. -/
def groupLabelIs (v : String) (d : Lifx) : Bool :=
  match d.group with
  | some g => v = g.label
  | none => false

/-- Holds when `d` has a location whose label is `v`. -/
def locationLabelIs (v : String) (d : Lifx) : Bool :=
  match d.location with
  | some loc => v = loc.label
  | none => false

/-- On a non-empty registry, the `all` selector short-circuits on the
first iteration with the full registry. -/
theorem sortLoop_all (full reg acc : List Lifx) (h : reg ≠ []) :
    sortLoop allSelector full reg acc = some (.ok full) := by
  cases reg with
  | nil => exact absurd rfl h
  | cons d rest => rfl

/-- The `label` selector collects, in order, the devices whose label
equals the selector's value. -/
theorem sortLoop_label (v : String) (full : List Lifx) (reg : List Lifx) :
    ∀ acc : List Lifx,
      sortLoop { labelSelector with value := v } full reg acc
        = some (matchResult (acc ++ reg.filter (fun d => v = d.label))) := by
  induction reg with
  | nil =>
    intro acc
    rw [show sortLoop { labelSelector with value := v } full [] acc
          = some (matchResult acc) from rfl]
    simp
  | cons d rest ih =>
    intro acc
    rw [show sortLoop { labelSelector with value := v } full (d :: rest) acc
          = sortLoop { labelSelector with value := v } full rest
              (if v = d.label then acc ++ [d] else acc) from rfl]
    by_cases h : v = d.label
    · rw [if_pos h, ih, List.filter_cons_of_pos (by simp [h]),
        List.append_assoc]
      rfl
    · rw [if_neg h, ih, List.filter_cons_of_neg (by simp [h])]

/-- The `uuid` selector collects, in order, the devices whose uuid equals
the selector's value. -/
theorem sortLoop_uuid (v : String) (full : List Lifx) (reg : List Lifx) :
    ∀ acc : List Lifx,
      sortLoop { uuidSelector with value := v } full reg acc
        = some (matchResult (acc ++ reg.filter (fun d => v = d.uuid))) := by
  induction reg with
  | nil =>
    intro acc
    rw [show sortLoop { uuidSelector with value := v } full [] acc
          = some (matchResult acc) from rfl]
    simp
  | cons d rest ih =>
    intro acc
    rw [show sortLoop { uuidSelector with value := v } full (d :: rest) acc
          = sortLoop { uuidSelector with value := v } full rest
              (if v = d.uuid then acc ++ [d] else acc) from rfl]
    by_cases h : v = d.uuid
    · rw [if_pos h, ih, List.filter_cons_of_pos (by simp [h]),
        List.append_assoc]
      rfl
    · rw [if_neg h, ih, List.filter_cons_of_neg (by simp [h])]

/-- The `group` selector collects, in order, the devices whose group label
equals the selector's value, provided every device has a group (the
source dereferences the nil pointer of a device without one). -/
theorem sortLoop_group (v : String) (full : List Lifx) (reg : List Lifx) :
    ∀ acc : List Lifx, (∀ d ∈ reg, d.group.isSome) →
      sortLoop { groupSelector with value := v } full reg acc
        = some (matchResult (acc ++ reg.filter (groupLabelIs v))) := by
  induction reg with
  | nil =>
    intro acc _
    rw [show sortLoop { groupSelector with value := v } full [] acc
          = some (matchResult acc) from rfl]
    simp
  | cons d rest ih =>
    intro acc hgrp
    obtain ⟨g, hg⟩ := Option.isSome_iff_exists.mp (hgrp d (List.mem_cons_self d rest))
    have hrest : ∀ x ∈ rest, x.group.isSome :=
      fun x hx => hgrp x (List.mem_cons_of_mem d hx)
    have step : sortLoop { groupSelector with value := v } full (d :: rest) acc
        = sortLoop { groupSelector with value := v } full rest
            (if v = g.label then acc ++ [d] else acc) := by
      rw [show sortLoop { groupSelector with value := v } full (d :: rest) acc
            = (match d.group with
               | none => none
               | some gg =>
                 sortLoop { groupSelector with value := v } full rest
                   (if v = gg.label then acc ++ [d] else acc)) from rfl, hg]
    rw [step]
    by_cases h : v = g.label
    · rw [if_pos h, ih _ hrest,
        List.filter_cons_of_pos (by simp [groupLabelIs, hg, h]),
        List.append_assoc]
      rfl
    · rw [if_neg h, ih _ hrest,
        List.filter_cons_of_neg (by simp [groupLabelIs, hg, h])]

/-- The `location` selector collects, in order, the devices whose
location label equals the selector's value, provided every device has a
location. -/
theorem sortLoop_location (v : String) (full : List Lifx) (reg : List Lifx) :
    ∀ acc : List Lifx, (∀ d ∈ reg, d.location.isSome) →
      sortLoop { locationSelector with value := v } full reg acc
        = some (matchResult (acc ++ reg.filter (locationLabelIs v))) := by
  induction reg with
  | nil =>
    intro acc _
    rw [show sortLoop { locationSelector with value := v } full [] acc
          = some (matchResult acc) from rfl]
    simp
  | cons d rest ih =>
    intro acc hloc
    obtain ⟨w, hw⟩ := Option.isSome_iff_exists.mp (hloc d (List.mem_cons_self d rest))
    have hrest : ∀ x ∈ rest, x.location.isSome :=
      fun x hx => hloc x (List.mem_cons_of_mem d hx)
    have step : sortLoop { locationSelector with value := v } full (d :: rest) acc
        = sortLoop { locationSelector with value := v } full rest
            (if v = w.label then acc ++ [d] else acc) := by
      rw [show sortLoop { locationSelector with value := v } full (d :: rest) acc
            = (match d.location with
               | none => none
               | some ww =>
                 sortLoop { locationSelector with value := v } full rest
                   (if v = ww.label then acc ++ [d] else acc)) from rfl, hw]
    rw [step]
    by_cases h : v = w.label
    · rw [if_pos h, ih _ hrest,
        List.filter_cons_of_pos (by simp [locationLabelIs, hw, h]),
        List.append_assoc]
      rfl
    · rw [if_neg h, ih _ hrest,
        List.filter_cons_of_neg (by simp [locationLabelIs, hw, h])]

/-- C6 (counterexample): the claim states that for every registry the
`all` selector resolves to the full registry; on the empty registry the
loop never reaches the `all` short-circuit and the empty match set is
reported not-found instead of the (empty) full registry. -/
theorem sortBySelector_all_empty_registry :
    sortBySelector allSelector ([] : List Lifx) = some (.error .notFound)
    ∧ sortBySelector allSelector ([] : List Lifx)
        ≠ some (.ok ([] : List Lifx)) := by decide

/-- Scanning with the `group` selector dereferences every device's group
pointer in turn, so a registry containing a device without a group makes
the source panic (tools.go:105), regardless of the other devices. -/
theorem sortLoop_group_panic (v : String) (full : List Lifx) (reg : List Lifx) :
    ∀ acc : List Lifx, (∃ d ∈ reg, d.group = none) →
      sortLoop { groupSelector with value := v } full reg acc = none := by
  induction reg with
  | nil =>
    intro acc h
    obtain ⟨x, hx, _⟩ := h
    exact absurd hx (List.not_mem_nil x)
  | cons d rest ih =>
    intro acc h
    obtain ⟨x, hx, hxg⟩ := h
    cases hdg : d.group with
    | none =>
      rw [show sortLoop { groupSelector with value := v } full (d :: rest) acc
            = (match d.group with
               | none => none
               | some gg =>
                 sortLoop { groupSelector with value := v } full rest
                   (if v = gg.label then acc ++ [d] else acc)) from rfl, hdg]
    | some g =>
      have step : sortLoop { groupSelector with value := v } full (d :: rest) acc
          = sortLoop { groupSelector with value := v } full rest
              (if v = g.label then acc ++ [d] else acc) := by
        rw [show sortLoop { groupSelector with value := v } full (d :: rest) acc
              = (match d.group with
                 | none => none
                 | some gg =>
                   sortLoop { groupSelector with value := v } full rest
                     (if v = gg.label then acc ++ [d] else acc)) from rfl, hdg]
      rw [step]
      rcases List.mem_cons.mp hx with h1 | h2
      · rw [h1] at hxg
        rw [hxg] at hdg
        exact Option.noConfusion hdg
      · exact ih _ ⟨x, h2, hxg⟩

/-- Scanning with the `location` selector dereferences every device's
location pointer in turn, so a registry containing a device without a
location makes the source panic (tools.go:113). -/
theorem sortLoop_location_panic (v : String) (full : List Lifx) (reg : List Lifx) :
    ∀ acc : List Lifx, (∃ d ∈ reg, d.location = none) →
      sortLoop { locationSelector with value := v } full reg acc = none := by
  induction reg with
  | nil =>
    intro acc h
    obtain ⟨x, hx, _⟩ := h
    exact absurd hx (List.not_mem_nil x)
  | cons d rest ih =>
    intro acc h
    obtain ⟨x, hx, hxl⟩ := h
    cases hdl : d.location with
    | none =>
      rw [show sortLoop { locationSelector with value := v } full (d :: rest) acc
            = (match d.location with
               | none => none
               | some ww =>
                 sortLoop { locationSelector with value := v } full rest
                   (if v = ww.label then acc ++ [d] else acc)) from rfl, hdl]
    | some w =>
      have step : sortLoop { locationSelector with value := v } full (d :: rest) acc
          = sortLoop { locationSelector with value := v } full rest
              (if v = w.label then acc ++ [d] else acc) := by
        rw [show sortLoop { locationSelector with value := v } full (d :: rest) acc
              = (match d.location with
                 | none => none
                 | some ww =>
                   sortLoop { locationSelector with value := v } full rest
                     (if v = ww.label then acc ++ [d] else acc)) from rfl, hdl]
      rw [step]
      rcases List.mem_cons.mp hx with h1 | h2
      · rw [h1] at hxl
        rw [hxl] at hdl
        exact Option.noConfusion hdl
      · exact ih _ ⟨x, h2, hxl⟩

/-- C6 (amended): on every non-empty registry, `all` resolves to the full
registry in original order (on the empty registry even `all` reports
not-found). On every registry, `label`/`uuid` resolve, unconditionally, to
exactly the devices whose field equals the selector's value, in original
order, with an empty match set reported as not-found — never as an empty
success list. `group`/`location` do the same over the group/location
labels when every device carries the corresponding record; when some
device's record is nil, the scan dereferences that nil pointer (panics)
instead of returning a match result. -/
theorem sortBySelector_resolution (registry : List Lifx) (v : String) :
    (registry ≠ [] → sortBySelector allSelector registry = some (.ok registry))
    ∧ sortBySelector { labelSelector with value := v } registry
        = some (matchResult (registry.filter (fun d => v = d.label)))
    ∧ sortBySelector { uuidSelector with value := v } registry
        = some (matchResult (registry.filter (fun d => v = d.uuid)))
    ∧ ((∀ d ∈ registry, d.group.isSome) →
        sortBySelector { groupSelector with value := v } registry
          = some (matchResult (registry.filter (groupLabelIs v))))
    ∧ ((∃ d ∈ registry, d.group = none) →
        sortBySelector { groupSelector with value := v } registry = none)
    ∧ ((∀ d ∈ registry, d.location.isSome) →
        sortBySelector { locationSelector with value := v } registry
          = some (matchResult (registry.filter (locationLabelIs v))))
    ∧ ((∃ d ∈ registry, d.location = none) →
        sortBySelector { locationSelector with value := v } registry = none) := by
  refine ⟨fun hne => sortLoop_all registry registry [] hne, ?_, ?_,
    fun hg => ?_, fun hex => ?_, fun hl => ?_, fun hex => ?_⟩
  · simpa using sortLoop_label v registry registry []
  · simpa using sortLoop_uuid v registry registry []
  · simpa using sortLoop_group v registry registry [] hg
  · exact sortLoop_group_panic v registry registry [] hex
  · simpa using sortLoop_location v registry registry [] hl
  · exact sortLoop_location_panic v registry registry [] hex

/-- The two-device registry of the spec's resolution example. -/
def exampleRegistry : List Lifx :=
  [{ uuid := "u1", label := "kitchen", connected := true, power := .on,
     hsbk := some On, group := some { id := List.replicate 16 0, label := "g1" },
     product := none, info := none,
     location := some { id := List.replicate 16 0, label := "l1" } },
   { uuid := "u2", label := "hall", connected := true, power := .off,
     hsbk := some Off, group := some { id := List.replicate 16 0, label := "g2" },
     product := none, info := none,
     location := some { id := List.replicate 16 0, label := "l2" } }]

/-- A one-device registry whose device has never been refreshed: group and
location are still nil. -/
def unrefreshedRegistry : List Lifx :=
  [{ uuid := "u3", label := "new", connected := false, power := .off,
     hsbk := none, group := none, product := none, info := none,
     location := none }]

/-- Witness for C6's amended theorem, discharging every hypothesis: the
non-emptiness of the spec's example registry, the all-groups/all-locations
provisos there, and the nil-group/nil-location panics on a registry with
an unrefreshed device. -/
theorem sortBySelector_resolution_witness :
    sortBySelector allSelector exampleRegistry = some (.ok exampleRegistry)
    ∧ sortBySelector { labelSelector with value := "kitchen" } exampleRegistry
        = some (matchResult (exampleRegistry.filter (fun d => "kitchen" = d.label)))
    ∧ sortBySelector { groupSelector with value := "g1" } exampleRegistry
        = some (matchResult (exampleRegistry.filter (groupLabelIs "g1")))
    ∧ sortBySelector { locationSelector with value := "l1" } exampleRegistry
        = some (matchResult (exampleRegistry.filter (locationLabelIs "l1")))
    ∧ sortBySelector { groupSelector with value := "g1" } unrefreshedRegistry = none
    ∧ sortBySelector { locationSelector with value := "l1" } unrefreshedRegistry = none :=
  ⟨(sortBySelector_resolution exampleRegistry "kitchen").1 (by decide),
   (sortBySelector_resolution exampleRegistry "kitchen").2.1,
   (sortBySelector_resolution exampleRegistry "g1").2.2.2.1 (by decide),
   (sortBySelector_resolution exampleRegistry "l1").2.2.2.2.2.1 (by decide),
   (sortBySelector_resolution unrefreshedRegistry "g1").2.2.2.2.1 (by decide),
   (sortBySelector_resolution unrefreshedRegistry "l1").2.2.2.2.2.2 (by decide)⟩

/-- C7: toggle semantics — with cached power on and cached brightness
positive, Toggle sends a SetColor message with the all-zero color;
otherwise it sends a SetColor message with the canonical on preset's hue,
saturation and kelvin (65535 each) and the given brightness. -/
theorem toggle_semantics (c : HSBK) (b dur : Nat) :
    (0 < c.brightness →
      toggleMessage Power.on (some c) b dur
        = some (SetColorMessage
            { hue := 0, saturation := 0, brightness := 0, kelvin := 0 } dur))
    ∧ (c.brightness = 0 →
      toggleMessage Power.on (some c) b dur
        = some (SetColorMessage
            { hue := 65535, saturation := 65535, brightness := b, kelvin := 65535 } dur))
    ∧ toggleMessage Power.off (some c) b dur
        = some (SetColorMessage
            { hue := 65535, saturation := 65535, brightness := b, kelvin := 65535 } dur) := by
  refine ⟨fun h => ?_, fun h => ?_, ?_⟩
  · simp [toggleMessage, h, Off]
  · simp [toggleMessage, h, onWithBrightness, On]
  · simp [toggleMessage, onWithBrightness, On]

/-- Witness for C7 at the spec's example devices: power on with
brightness 20000 sends the all-zero color; power off with maxBrightness
30000 sends hue/saturation/kelvin 65535 and brightness 30000. -/
theorem toggle_semantics_witness :
    toggleMessage Power.on
        (some { hue := 65535, saturation := 65535, brightness := 20000, kelvin := 65535 })
        30000 1500
      = some (SetColorMessage
          { hue := 0, saturation := 0, brightness := 0, kelvin := 0 } 1500)
    ∧ toggleMessage Power.off
        (some { hue := 65535, saturation := 65535, brightness := 20000, kelvin := 65535 })
        30000 1500
      = some (SetColorMessage
          { hue := 65535, saturation := 65535, brightness := 30000, kelvin := 65535 } 1500) :=
  ⟨(toggle_semantics
      { hue := 65535, saturation := 65535, brightness := 20000, kelvin := 65535 }
      30000 1500).1 (by decide),
   (toggle_semantics
      { hue := 65535, saturation := 65535, brightness := 20000, kelvin := 65535 }
      30000 1500).2.2⟩

/-- C8: refresh-sequence abort — `connected` (cleared at entry) ends up
true exactly when all five exchanges succeed, and when the state query
succeeds but the group query fails with `e`, `Update` returns `e`, leaves
`connected` false, keeps the color/label/power just decoded from the
state reply, and leaves the group/info/location/product fields at their
previously cached values. -/
theorem update_abort (l : Lifx) (r : UpdateResults) :
    ((l.update r).1.connected = true ↔
      (r.state.isOk = true ∧ r.group.isOk = true ∧ r.info.isOk = true
        ∧ r.location.isOk = true ∧ r.version.isOk = true))
    ∧ (∀ st e, r.state = .ok st → r.group = .error e →
        l.update r
          = ({ l with
                connected := false
                hsbk := some st.hsbk
                label := st.label
                power := st.power }, some e)) := by
  obtain ⟨s, g, i, loc, ver⟩ := r
  cases s <;> cases g <;> cases i <;> cases loc <;> cases ver <;>
    simp [Lifx.update, Except.isOk, Except.toBool]

/-- Witness for C8: a concrete device whose state query succeeds and whose
group query fails. -/
theorem update_abort_witness :
    Lifx.update
        { uuid := "u", label := "old", connected := true, power := Power.off,
          hsbk := none, group := some { id := List.replicate 16 0, label := "g" },
          product := none, info := none, location := none }
        { state := .ok { hsbk := On, power := Power.on, label := "new" },
          group := .error Err.notValid, info := .ok { time := 0, upTime := 0, downTime := 0 },
          location := .ok { id := List.replicate 16 0, label := "loc" },
          version := .ok none }
      = ({ uuid := "u", label := "new", connected := false, power := Power.on,
           hsbk := some On, group := some { id := List.replicate 16 0, label := "g" },
           product := none, info := none, location := none }, some Err.notValid) :=
  (update_abort
      { uuid := "u", label := "old", connected := true, power := Power.off,
        hsbk := none, group := some { id := List.replicate 16 0, label := "g" },
        product := none, info := none, location := none }
      { state := .ok { hsbk := On, power := Power.on, label := "new" },
        group := .error Err.notValid, info := .ok { time := 0, upTime := 0, downTime := 0 },
        location := .ok { id := List.replicate 16 0, label := "loc" },
        version := .ok none }).2
    { hsbk := On, power := Power.on, label := "new" } Err.notValid rfl rfl

/-- C9: every successfully decoded message has an empty payload — the
source copies the tail of the buffer into the zero-length nil slice, so no
trailing bytes are ever stored. -/
theorem decoded_payload_empty (bytes : List Nat) (m : Message)
    (h : DecodeToMessage bytes = some m) : m.payload = [] := by
  unfold DecodeToMessage at h
  simp only [bind, Option.bind_eq_some, Option.pure_def, Option.some.injEq] at h
  obtain ⟨_, _, _, _, _, _, _, _, _, _, _, _, _, _, _, _, hm⟩ := h
  subst hm
  simp [goCopy]

/-- The message decoded from a 36-byte all-zero buffer. -/
def zeroMessage : Message :=
  { size := [0, 0]
    header :=
      { frame := [0, 0], source := [0, 0, 0, 0], target := List.replicate 8 0,
        ackRequired := false, resRequired := false, sequence := 0,
        messageType := [0, 0] }
    payload := [] }

/-- Witness for C9 on the 36-byte all-zero buffer. -/
theorem decoded_payload_empty_witness :
    DecodeToMessage (List.replicate 36 0) = some zeroMessage
    ∧ zeroMessage.payload = [] :=
  ⟨by decide, decoded_payload_empty (List.replicate 36 0) zeroMessage (by decide)⟩

/-- C10: the toggle guard short-circuits — with power on and no cached
color the source dereferences a nil pointer (`none`), with power off the
nil color is never touched and the on-preset message is sent, and with
power on and any cached color the operation is well-defined. -/
theorem toggle_nil_color_guard (b dur : Nat) :
    toggleMessage Power.on none b dur = none
    ∧ toggleMessage Power.off none b dur
        = some (SetColorMessage (onWithBrightness b) dur)
    ∧ (∀ c : HSBK, (toggleMessage Power.on (some c) b dur).isSome = true) := by
  refine ⟨rfl, rfl, fun c => ?_⟩
  by_cases h : 0 < c.brightness <;> simp [toggleMessage, h]

end Horus
